import Mathlib

/-!
Verification of the trading-bot core against its specification.

The definitions below are shallow embeddings of the Python sources:
* `src/paper_trader.py`  — `PaperTrader` (position lifecycle, sizing, exits, P&L),
* `src/signal_engine.py` — `IndicatorCalculator` / `SignalEngine` (trend filter,
  entry scorer, dedup-and-store of signals),
* `src/data_feed.py`     — `CandleBuffer.add_candle` and the reconnection loop of
  `BinanceDataFeed._connect`.

Floats are modelled by exact rationals (`ℚ`); Python dictionaries keyed by
symbol are modelled by association lists; wall-clock timestamps (only ever
stored, never branched on) are modelled by opaque strings.
-/

set_option maxRecDepth 8000

namespace TradingBot

/-- Truncation toward zero: the behaviour of Python `int()` applied to a number. -/
def pyInt (q : ℚ) : ℤ := if 0 ≤ q then ⌊q⌋ else ⌈q⌉

/-- `np.clip(x, lo, hi)`, which numpy computes as `min(hi, max(x, lo))`. -/
def npClip (x lo hi : ℚ) : ℚ := min hi (max x lo)

/-- `np.clip` on integers (used for the leverage clamp). -/
def npClipInt (x lo hi : ℤ) : ℤ := min hi (max x lo)

/-- Python `round(q, 2)` of the logged trade figures, modelled as round half
away from the nearest even being irrelevant here: no claim depends on the
rounded log fields, so ordinary rounding to two decimals is used. -/
def roundTo2 (q : ℚ) : ℚ := (round (q * 100) : ℚ) / 100

/-- Dictionary read `d.get(k)` / `k in d` on a symbol-keyed dict. -/
def findVal {α : Type} : List (String × α) → String → Option α
  | [], _ => none
  | (k, v) :: rest, key => if k = key then some v else findVal rest key

/-- Dictionary write `d[k] = v` for a key already present (Python dicts keep
insertion order, so the entry is replaced in place). -/
def setVal {α : Type} : List (String × α) → String → α → List (String × α)
  | [], _, _ => []
  | (k, v) :: rest, key, nv =>
    if k = key then (k, nv) :: rest else (k, v) :: setVal rest key nv

/-- Dictionary delete `del d[k]`. -/
def removeVal {α : Type} : List (String × α) → String → List (String × α)
  | [], _ => []
  | (k, v) :: rest, key =>
    if k = key then removeVal rest key else (k, v) :: removeVal rest key

/-! ## PaperTrader data model (`src/paper_trader.py`, lines 23-52) -/

/-- `Position` dataclass of `paper_trader.py`. -/
structure Position where
  symbol : String
  direction : String
  entry_price : ℚ
  entry_time : String
  leverage : ℤ
  margin : ℚ
  tp_price : ℚ
  sl_price : ℚ
  trail_pct : ℚ
  max_pnl_pct : ℚ
  hold_candles : ℕ
  deriving DecidableEq, Repr

/-- `Trade` dataclass of `paper_trader.py`. -/
structure Trade where
  symbol : String
  direction : String
  entry_price : ℚ
  exit_price : ℚ
  entry_time : String
  exit_time : String
  leverage : ℤ
  margin : ℚ
  pnl : ℚ
  pnl_pct : ℚ
  exit_reason : String
  conviction : ℚ
  deriving DecidableEq, Repr

/-- Mutable state of a `PaperTrader` instance.  The parameters fixed in
`__init__` (`risk_per_trade`, exit percentages, slippage, `max_hold_candles`)
are constants below; `min_leverage`/`max_leverage` are constructor arguments
and therefore fields. -/
structure PaperTrader where
  starting_balance : ℚ
  balance : ℚ
  positions : List (String × Position)
  trades : List Trade
  min_leverage : ℤ
  max_leverage : ℤ
  deriving DecidableEq, Repr

/-- `self.risk_per_trade = 0.02`. -/
def riskPerTrade : ℚ := 2 / 100

/-- `self.max_hold_candles = 32`. -/
def maxHoldCandles : ℕ := 32

/-- `self.tp_pct = 0.015`. -/
def tpPct : ℚ := 15 / 1000

/-- `self.sl_pct = 0.008`. -/
def slPct : ℚ := 8 / 1000

/-- `self.trail_pct = 0.007`. -/
def trailPct : ℚ := 7 / 1000

/-- `self.slippage_pct = 0.0005`. -/
def slippagePct : ℚ := 5 / 10000

/-- Round-trip fee rate `0.0008` used in `close_position`. -/
def feeRate : ℚ := 8 / 10000

/-- The signal dict consumed by `open_position`; `conviction` and `atr_pct`
are read with `.get` defaults, hence optional. -/
structure Signal where
  symbol : String
  signal : String
  price : ℚ
  conviction : Option ℚ
  atr_pct : Option ℚ
  deriving DecidableEq, Repr

/-- `signal.get('conviction', 0.5)`. -/
def convOf (sig : Signal) : ℚ := sig.conviction.getD (1 / 2)

/-- Entry slippage (`paper_trader.py` lines 119-123): price is worsened in the
direction of the entry. -/
def entryPriceOf (sig : Signal) : ℚ :=
  if sig.signal = "BUY" then sig.price * (1 + slippagePct)
  else sig.price * (1 - slippagePct)

/-- `margin = np.clip(balance*0.02*(0.5+conviction*0.5), 100, balance*0.05)`
(`paper_trader.py` lines 126-128). -/
def marginOf (balance conviction : ℚ) : ℚ :=
  npClip (balance * riskPerTrade * (1 / 2 + conviction * (1 / 2))) 100 (balance * (5 / 100))

/-- `leverage = np.clip(int(min_lev + conviction*(max_lev-min_lev)), min_lev, max_lev)`
(`paper_trader.py` lines 131-132).  Note Python `int()` truncates. -/
def leverageOf (minL maxL : ℤ) (conviction : ℚ) : ℤ :=
  npClipInt (pyInt ((minL : ℚ) + conviction * ((maxL : ℚ) - (minL : ℚ)))) minL maxL

/-- The `Position` record constructed by `open_position` (lines 134-153).
`entry_time` is a wall-clock string, modelled as empty. -/
def mkPosition (t : PaperTrader) (sig : Signal) : Position :=
  { symbol := sig.symbol
    direction := sig.signal
    entry_price := entryPriceOf sig
    entry_time := ""
    leverage := leverageOf t.min_leverage t.max_leverage (convOf sig)
    margin := marginOf t.balance (convOf sig)
    tp_price := if sig.signal = "BUY" then entryPriceOf sig * (1 + tpPct)
                else entryPriceOf sig * (1 - tpPct)
    sl_price := if sig.signal = "BUY" then entryPriceOf sig * (1 - slPct)
                else entryPriceOf sig * (1 + slPct)
    trail_pct := trailPct
    max_pnl_pct := 0
    hold_candles := 0 }

/-- `PaperTrader.open_position` (`paper_trader.py` lines 103-167). -/
def open_position (t : PaperTrader) (sig : Signal) : Bool × PaperTrader :=
  match findVal t.positions sig.symbol with
  | some _ => (false, t)
  | none =>
    if sig.signal = "BUY" ∨ sig.signal = "SELL" then
      (true, { t with positions := t.positions ++ [(sig.symbol, mkPosition t sig)] })
    else (false, t)

/-- Directional unrealized P&L percentage (`paper_trader.py` lines 178-181);
the `else` branch of the source covers every non-`"BUY"` direction. -/
def pnlPctOf (direction : String) (entry current : ℚ) : ℚ :=
  if direction = "BUY" then (current - entry) / entry else (entry - current) / entry

/-- The in-place mutation at the start of `update_position` (lines 175-184):
increment `hold_candles` and raise the high-water mark `max_pnl_pct`. -/
def steppedPos (p : Position) (current : ℚ) : Position :=
  { p with
    hold_candles := p.hold_candles + 1
    max_pnl_pct := max p.max_pnl_pct (pnlPctOf p.direction p.entry_price current) }

/-- Take-profit trigger (lines 190-193). -/
def tpHit (p : Position) (price : ℚ) : Prop :=
  (p.direction = "BUY" ∧ p.tp_price ≤ price) ∨ (p.direction = "SELL" ∧ price ≤ p.tp_price)

instance (p : Position) (price : ℚ) : Decidable (tpHit p price) := by
  unfold tpHit; infer_instance

/-- Stop-loss trigger (lines 196-199). -/
def slHit (p : Position) (price : ℚ) : Prop :=
  (p.direction = "BUY" ∧ price ≤ p.sl_price) ∨ (p.direction = "SELL" ∧ p.sl_price ≤ price)

instance (p : Position) (price : ℚ) : Decidable (slHit p price) := by
  unfold slHit; infer_instance

/-- The `if/elif` exit chain of `update_position` (lines 186-208), evaluated on
the already-stepped position.  Note the source nests the TRAIL retrace test
inside the `elif position.max_pnl_pct > position.trail_pct:` arm, so when that
guard holds but the retrace test fails, the chain ends without ever reaching
the TIMEOUT `elif`. -/
def exitReasonOf (p : Position) (price : ℚ) : Option String :=
  if tpHit p price then some "TP"
  else if slHit p price then some "SL"
  else if p.trail_pct < p.max_pnl_pct then
    if pnlPctOf p.direction p.entry_price price < p.max_pnl_pct - p.trail_pct then some "TRAIL"
    else none
  else if maxHoldCandles ≤ p.hold_candles then some "TIMEOUT"
  else none

/-- Exit slippage (`paper_trader.py` lines 223-229): opposite to the entry
direction. -/
def actualExitOf (direction : String) (exit_price : ℚ) : ℚ :=
  if direction = "BUY" then exit_price * (1 - slippagePct)
  else exit_price * (1 + slippagePct)

/-- `net_pnl` of `close_position` (lines 231-237). -/
def netPnlOf (p : Position) (exit_price : ℚ) : ℚ :=
  p.margin * (pnlPctOf p.direction p.entry_price (actualExitOf p.direction exit_price) * (p.leverage : ℚ))
    - p.margin * (p.leverage : ℚ) * feeRate

/-- The `Trade` record built by `close_position` (lines 243-256); note the
source hard-codes `conviction=0`. -/
def mkTrade (symbol : String) (p : Position) (exit_price : ℚ) (reason : String) : Trade :=
  { symbol := symbol
    direction := p.direction
    entry_price := p.entry_price
    exit_price := actualExitOf p.direction exit_price
    entry_time := p.entry_time
    exit_time := ""
    leverage := p.leverage
    margin := p.margin
    pnl := roundTo2 (netPnlOf p exit_price)
    pnl_pct := roundTo2 (pnlPctOf p.direction p.entry_price (actualExitOf p.direction exit_price) * 100)
    exit_reason := reason
    conviction := 0 }

/-- `PaperTrader.close_position` (`paper_trader.py` lines 216-273). -/
def close_position (t : PaperTrader) (symbol : String) (exit_price : ℚ) (reason : String) :
    PaperTrader :=
  match findVal t.positions symbol with
  | none => t
  | some p =>
    { t with
      balance := t.balance + netPnlOf p exit_price
      trades := t.trades ++ [mkTrade symbol p exit_price reason]
      positions := removeVal t.positions symbol }

/-- `PaperTrader.update_position` (`paper_trader.py` lines 169-214). -/
def update_position (t : PaperTrader) (symbol : String) (current_price : ℚ) :
    Option String × PaperTrader :=
  match findVal t.positions symbol with
  | none => (none, t)
  | some p0 =>
    let p := steppedPos p0 current_price
    let t1 := { t with positions := setVal t.positions symbol p }
    match exitReasonOf p current_price with
    | some r => (some r, close_position t1 symbol current_price r)
    | none => (none, t1)

/-! ## Candle store (`src/data_feed.py`, `CandleBuffer`, lines 128-170) -/

/-- One OHLCV candle as parsed by the feed; `open` is a Lean keyword, so the
source's `open` field is named `open_`. -/
structure Candle where
  timestamp : ℕ
  open_ : ℚ
  high : ℚ
  low : ℚ
  close : ℚ
  volume : ℚ
  deriving DecidableEq, Repr

/-- `CandleBuffer.add_candle` (lines 135-150) restricted to one
`(symbol, timeframe)` key: the method only ever touches the list stored under
that key, so the per-key behaviour is exactly this list transformer. -/
def addCandle (maxCandles : ℕ) (candles : List Candle) (c : Candle) : List Candle :=
  match candles.getLast? with
  | some last =>
    if last.timestamp = c.timestamp then candles.dropLast ++ [c]
    else if maxCandles < (candles ++ [c]).length then (candles ++ [c]).drop 1
    else candles ++ [c]
  | none =>
    if maxCandles < (candles ++ [c]).length then (candles ++ [c]).drop 1
    else candles ++ [c]

/-! ## Reconnection loop (`src/data_feed.py`, `BinanceDataFeed._connect`,
lines 281-338) -/

/-- The two observable outcomes of one iteration of the outer `while` of
`_connect`: the connection attempt raises (`fail`), or it succeeds, streams
some candle notifications, and is then broken by a message error
(`succeed cs`). -/
inductive ConnAttempt where
  | fail
  | succeed (cs : List Candle)
  deriving DecidableEq, Repr

/-- The feed state carried across iterations of `_connect`: `self.running` and
the local `retry_count`. -/
structure FeedState where
  running : Bool
  retryCount : ℕ
  deriving DecidableEq, Repr

/-- The outer reconnection loop of `_connect`, run against a finite trace of
attempt outcomes.  Mirrors the source exactly: the loop guard is
`self.running or retry_count == 0`; a successful connection sets
`running = True` and resets `retry_count = 0`; a failed attempt increments
`retry_count` and, once `retry_count > max_retries`, sets `running = False`
and breaks.  The returned list is every candle notification emitted. -/
def connectLoop (maxRetries : ℕ) : FeedState → List ConnAttempt → FeedState × List Candle
  | s, attempts =>
    if s.running = true ∨ s.retryCount = 0 then
      match attempts with
      | [] => (s, [])
      | ConnAttempt.fail :: rest =>
        if maxRetries < s.retryCount + 1 then ({ running := false, retryCount := s.retryCount + 1 }, [])
        else connectLoop maxRetries { s with retryCount := s.retryCount + 1 } rest
      | ConnAttempt.succeed cs :: rest =>
        let r := connectLoop maxRetries { running := true, retryCount := 0 } rest
        (r.1, cs ++ r.2)
    else (s, [])

/-- `max_retries = 5` (`data_feed.py` line 282). -/
def feedMaxRetries : ℕ := 5

/-! ## Signal dedup and storage (`src/signal_engine.py`, `process`,
lines 289-296) -/

/-- The notify condition of `process`: the freshly built signal dict is pushed
to subscribers iff its `'signal'` kind differs from the stored last signal's
kind (`last.get('signal', 'HOLD')`, so a missing entry reads as `"HOLD"`) and
is itself not `"HOLD"`.  Comparison is only ever on the `'signal'` key, so the
stored dict is modelled by its kind. -/
def notifies (last : Option String) (kind : String) : Prop :=
  kind ≠ last.getD "HOLD" ∧ kind ≠ "HOLD"

instance (last : Option String) (kind : String) : Decidable (notifies last kind) := by
  unfold notifies; infer_instance

/-- Number of subscriber notifications over a run of evaluations for one
symbol, starting from a given stored last signal; after every evaluation the
new signal is stored (`self.last_signals[symbol] = signal`). -/
def notifyCount : Option String → List String → ℕ
  | _, [] => 0
  | last, k :: ks => (if notifies last k then 1 else 0) + notifyCount (some k) ks

/-- The stored last signal after a run of evaluations. -/
def lastStored : Option String → List String → Option String
  | last, [] => last
  | _, k :: ks => lastStored (some k) ks

/-! ## Indicators (`src/signal_engine.py`, `IndicatorCalculator`) -/

/-- Tail of `ewm(adjust=False)`: `y_i = (1-a)*y_(i-1) + a*x_i`. -/
def ewmFrom (a prev : ℚ) : List ℚ → List ℚ
  | [] => []
  | x :: xs => ((1 - a) * prev + a * x) :: ewmFrom a ((1 - a) * prev + a * x) xs

/-- `series.ewm(span=s, adjust=False).mean()`: seeded by the first value. -/
def ewm (a : ℚ) : List ℚ → List ℚ
  | [] => []
  | x :: xs => x :: ewmFrom a x xs

/-- `series.ewm(span=s, adjust=False).mean()` with `a = 2/(span+1)`. -/
def emaSpan (span : ℕ) (xs : List ℚ) : List ℚ := ewm (2 / ((span : ℚ) + 1)) xs

/-- Last element of a rational series, defaulting to 0 (`df.iloc[-1]` access;
only applied to nonempty series in every reachable path). -/
def lastD (xs : List ℚ) : ℚ := xs.getLast?.getD 0

def closes (df : List Candle) : List ℚ := df.map Candle.close

def closeAt (df : List Candle) (i : ℕ) : ℚ := (df[i]?.map Candle.close).getD 0

def highAt (df : List Candle) (i : ℕ) : ℚ := (df[i]?.map Candle.high).getD 0

def lowAt (df : List Candle) (i : ℕ) : ℚ := (df[i]?.map Candle.low).getD 0

/-- True range of `add_1h_indicators` (lines 36-40): at index 0 the two
`shift(1)` terms are NaN and pandas' row-max skips them. -/
def trAt (df : List Candle) (i : ℕ) : ℚ :=
  if i = 0 then highAt df 0 - lowAt df 0
  else
    max (highAt df i - lowAt df i)
      (max |highAt df i - closeAt df (i - 1)| |lowAt df i - closeAt df (i - 1)|)

/-- Sum of ten consecutive true ranges starting at index `j`. -/
def trWindowSum (df : List Candle) (j : ℕ) : ℚ :=
  ((List.range 10).map fun k => trAt df (j + k)).sum

/-- `tr.rolling(10).mean().bfill()` (line 41): indices below 9 are NaN and are
back-filled with the value at index 9.  (For series shorter than 10 the whole
column stays NaN and the source falls back to `st[i-1]`; that case is
unreachable here since the trend filter requires 50 candles.) -/
def atr1hAt (df : List Candle) (i : ℕ) : ℚ :=
  if 9 ≤ i then trWindowSum df (i - 9) / 10 else trWindowSum df 0 / 10

/-- Supertrend upper band `hl2 + 2.5*atr` (line 43). -/
def upperAt (df : List Candle) (i : ℕ) : ℚ :=
  (highAt df i + lowAt df i) / 2 + 5 / 2 * atr1hAt df i

/-- Supertrend lower band `hl2 - 2.5*atr` (line 44). -/
def lowerAt (df : List Candle) (i : ℕ) : ℚ :=
  (highAt df i + lowAt df i) / 2 - 5 / 2 * atr1hAt df i

/-- The Supertrend state loop of `add_1h_indicators` (lines 46-67), returning
`(st[i], direction[i])`; `st[0] = close[0]`, `direction[0] = 0`. -/
def stPair (df : List Candle) : ℕ → ℚ × ℤ
  | 0 => (closeAt df 0, 0)
  | i + 1 =>
    let prev := stPair df i
    let ub := upperAt df (i + 1)
    let lb := lowerAt df (i + 1)
    let st1 := if ub < prev.1 ∨ prev.1 < closeAt df i then ub else prev.1
    if st1 < closeAt df (i + 1) then
      (if prev.2 ≠ 1 then lb else st1, 1)
    else
      (if prev.2 ≠ -1 then ub else st1, -1)

/-- `st_dir` at the last row (`row['st_dir']` of `get_1h_direction`). -/
def stDirLast (df : List Candle) : ℤ := (stPair df (df.length - 1)).2

/-- `EMA_8`, `EMA_21`, `EMA_50` at the last row. -/
def ema1hLast (span : ℕ) (df : List Candle) : ℚ := lastD (emaSpan span (closes df))

/-- The relaxed bullish condition of `get_1h_direction` (line 165):
`ema_up or (st_up and ema_partial_up)`. -/
def bull1h (df : List Candle) : Prop :=
  (ema1hLast 21 df < ema1hLast 8 df ∧ ema1hLast 50 df < ema1hLast 21 df) ∨
    (stDirLast df = 1 ∧ ema1hLast 21 df < ema1hLast 8 df)

instance (df : List Candle) : Decidable (bull1h df) := by
  unfold bull1h; infer_instance

/-- The relaxed bearish condition of `get_1h_direction` (line 166). -/
def bear1h (df : List Candle) : Prop :=
  (ema1hLast 8 df < ema1hLast 21 df ∧ ema1hLast 21 df < ema1hLast 50 df) ∨
    (stDirLast df = -1 ∧ ema1hLast 8 df < ema1hLast 21 df)

instance (df : List Candle) : Decidable (bear1h df) := by
  unfold bear1h; infer_instance

/-- `SignalEngine.get_1h_direction` (`signal_engine.py` lines 141-173);
`df_1h is None` and an under-50 frame both yield 0. -/
def get_1h_direction (df : List Candle) : ℤ :=
  if df.length < 50 then 0
  else if bull1h df ∧ ¬bear1h df then 1
  else if bear1h df ∧ ¬bull1h df then -1
  else 0

/-! ## 15m entry indicators (`add_15m_indicators`, lines 73-115) and the entry
scorer (`check_15m_entry`, lines 175-245).  All values are the last-row
(`iloc[-1]`) values actually read by the scorer; for frames of length ≥ 30
none of them is NaN, so the `ffill().fillna(0)` pass is the identity on the
rows used. -/

/-- `close.diff()` without its leading NaN. -/
def deltas (df : List Candle) : List ℚ :=
  List.zipWith (fun a b => a - b) (closes df).tail (closes df)

/-- `delta.where(delta > 0, 0)`: the index-0 NaN compares false and becomes 0. -/
def gains (df : List Candle) : List ℚ :=
  0 :: (deltas df).map fun d => if 0 < d then d else 0

/-- `(-delta).where(delta < 0, 0)`. -/
def losses (df : List Candle) : List ℚ :=
  0 :: (deltas df).map fun d => if d < 0 then -d else 0

/-- `RSI` at the last row (lines 83-86), with the `1e-10` epsilon guard. -/
def rsiLast (df : List Candle) : ℚ :=
  100 - 100 / (1 + lastD (emaSpan 10 (gains df)) / (lastD (emaSpan 10 (losses df)) + 1 / 10 ^ 10))

/-- `MACD = EMA(8) - EMA(17)` as a series (lines 89-91). -/
def macdList (df : List Candle) : List ℚ :=
  List.zipWith (fun a b => a - b) (emaSpan 8 (closes df)) (emaSpan 17 (closes df))

def macdLast (df : List Candle) : ℚ := lastD (macdList df)

/-- `MACD_sig = MACD.ewm(span=9, adjust=False).mean()` at the last row. -/
def macdSigLast (df : List Candle) : ℚ := lastD (emaSpan 9 (macdList df))

/-- `prev['MACD']`, the MACD value at the second-to-last row. -/
def macdPrev (df : List Candle) : ℚ := ((macdList df)[df.length - 2]?).getD 0

def closeLast (df : List Candle) : ℚ := lastD (closes df)

def openLast (df : List Candle) : ℚ := lastD (df.map Candle.open_)

/-- `body = close - open` at the last row (line 110). -/
def bodyLast (df : List Candle) : ℚ := closeLast df - openLast df

def ema13Last (df : List Candle) : ℚ := lastD (emaSpan 13 (closes df))

/-- `dist_ema13 = (close - EMA_13)/EMA_13*100` at the last row (line 113). -/
def distEma13Last (df : List Candle) : ℚ :=
  (closeLast df - ema13Last df) / ema13Last df * 100

def volumes (df : List Candle) : List ℚ := df.map Candle.volume

def volumeLast (df : List Candle) : ℚ := lastD (volumes df)

/-- `vol_MA = volume.rolling(12).mean()` at the last row (line 106). -/
def volMALast (df : List Candle) : ℚ :=
  ((volumes df).drop (df.length - 12)).sum / 12

/-- `vol_ratio = volume / (vol_MA + 1e-10)` at the last row (line 107). -/
def volRatioLast (df : List Candle) : ℚ :=
  volumeLast df / (volMALast df + 1 / 10 ^ 10)

/-- 15m true range (lines 95-101).  The source builds the previous close with
`np.roll(close, 1)`, which wraps around: index 0 reads the last close. -/
def tr15At (df : List Candle) (i : ℕ) : ℚ :=
  let pc := if i = 0 then closeAt df (df.length - 1) else closeAt df (i - 1)
  max (highAt df i - lowAt df i) (max |highAt df i - pc| |lowAt df i - pc|)

/-- `ATR = tr.rolling(10).mean()` at the last row (line 102). -/
def atr15Last (df : List Candle) : ℚ :=
  ((List.range 10).map fun k => tr15At df (df.length - 10 + k)).sum / 10

/-- `ATR_pct = ATR/close*100` at the last row (line 103). -/
def atrPctLast (df : List Candle) : ℚ := atr15Last df / closeLast df * 100

/-- The five BUY-side entry conditions of `check_15m_entry` (lines 188-194),
in source order: EMA-13 proximity, RSI band, MACD momentum, candle body,
volume ratio. -/
def buyCondList (df : List Candle) : List Bool :=
  [decide (-2 < distEma13Last df ∧ distEma13Last df < 3 / 2),
   decide (30 < rsiLast df ∧ rsiLast df < 70),
   decide (macdSigLast df < macdLast df ∨ macdPrev df < macdLast df),
   decide (0 < bodyLast df),
   decide (1 / 2 < volRatioLast df)]

/-- `score = sum(conditions)` on the BUY side (line 195). -/
def buyScore (df : List Candle) : ℕ := (buyCondList df).count true

/-- The five SELL-side entry conditions (lines 217-223), mirror-symmetric. -/
def sellCondList (df : List Candle) : List Bool :=
  [decide (-(3 / 2) < distEma13Last df ∧ distEma13Last df < 2),
   decide (30 < rsiLast df ∧ rsiLast df < 70),
   decide (macdLast df < macdSigLast df ∨ macdLast df < macdPrev df),
   decide (bodyLast df < 0),
   decide (1 / 2 < volRatioLast df)]

/-- `score = sum(conditions)` on the SELL side (line 224). -/
def sellScore (df : List Candle) : ℕ := (sellCondList df).count true

/-- The dict returned by `check_15m_entry`; keys that a given return statement
omits are modelled as the defaults `process` later reads them with
(`entry.get("score", 0)` etc.), i.e. `0` and `""`. -/
structure EntryOut where
  signal : String
  score : ℕ
  conviction : ℚ
  price : ℚ
  atr_pct : ℚ
  reason : String
  deriving DecidableEq, Repr

/-- `{"signal": "HOLD", "reason": "Insufficient data"}` (line 178). -/
def insufficientEntry : EntryOut :=
  { signal := "HOLD", score := 0, conviction := 0, price := 0, atr_pct := 0,
    reason := "Insufficient data" }

/-- The fall-through `{"signal": "HOLD", "reason": f"Score {score}/5 < 2 required"}`
(line 245). -/
def holdScoreOut (score : ℕ) : EntryOut :=
  { signal := "HOLD", score := 0, conviction := 0, price := 0, atr_pct := 0,
    reason := "Score " ++ toString score ++ "/5 < 2 required" }

/-- The BUY return dict of `check_15m_entry` (lines 200-214). -/
def buyOut (df : List Candle) : EntryOut :=
  { signal := "BUY", score := buyScore df, conviction := (buyScore df : ℚ) / 5,
    price := closeLast df, atr_pct := atrPctLast df, reason := "" }

/-- The SELL return dict of `check_15m_entry` (lines 229-243). -/
def sellOut (df : List Candle) : EntryOut :=
  { signal := "SELL", score := sellScore df, conviction := (sellScore df : ℚ) / 5,
    price := closeLast df, atr_pct := atrPctLast df, reason := "" }

/-- `SignalEngine.check_15m_entry` (`signal_engine.py` lines 175-245).  The
final branch (direction neither 1 nor -1) is unreachable from `process`, which
only calls with a non-neutral direction; the source would raise `NameError`
there, modelled as the fall-through dict with score 0. -/
def check_15m_entry (df : List Candle) (direction : ℤ) : EntryOut :=
  if df.length < 30 then insufficientEntry
  else if direction = 1 then
    if 2 ≤ buyScore df then buyOut df else holdScoreOut (buyScore df)
  else if direction = -1 then
    if 2 ≤ sellScore df then sellOut df else holdScoreOut (sellScore df)
  else holdScoreOut 0

/-- The signal dict built by `SignalEngine.process` (lines 247-296); missing
keys of the neutral branch are modelled as the `.get` defaults used downstream. -/
structure SignalOut where
  symbol : String
  signal : String
  direction : String
  score : ℕ
  conviction : ℚ
  price : ℚ
  atr_pct : ℚ
  reason : String
  deriving DecidableEq, Repr

/-- `SignalEngine.process` without its store-and-notify tail (lines 250-287);
the dedup/storage behaviour of that tail is modelled by `notifyCount` and
`lastStored` above. -/
def process (symbol : String) (df1h df15 : List Candle) : SignalOut :=
  if get_1h_direction df1h = 0 then
    { symbol := symbol, signal := "HOLD", direction := "NEUTRAL",
      score := 0, conviction := 0, price := 0, atr_pct := 0,
      reason := "No clear trend (ST and EMA not aligned)" }
  else
    { symbol := symbol
      signal := (check_15m_entry df15 (get_1h_direction df1h)).signal
      direction := if get_1h_direction df1h = 1 then "BULLISH" else "BEARISH"
      score := (check_15m_entry df15 (get_1h_direction df1h)).score
      conviction := (check_15m_entry df15 (get_1h_direction df1h)).conviction
      price := (check_15m_entry df15 (get_1h_direction df1h)).price
      atr_pct := (check_15m_entry df15 (get_1h_direction df1h)).atr_pct
      reason := (check_15m_entry df15 (get_1h_direction df1h)).reason }

/-! ## Concrete inputs used by the witness and counterexample theorems -/

/-- A flat unit candle: every price and the volume equal to 1. -/
def unitCandle (i : ℕ) : Candle :=
  { timestamp := i, open_ := 1, high := 1, low := 1, close := 1, volume := 1 }

/-- A flat candle at timestamp `i` with all prices and the volume `x`. -/
def fullCandle (i : ℕ) (x : ℚ) : Candle :=
  { timestamp := i, open_ := x, high := x, low := x, close := x, volume := x }

/-- A flat unit series of `n` candles (the signal engine never reads
timestamps, so a constant timestamp is harmless). -/
def flatCandles (n : ℕ) : List Candle := List.replicate n (fullCandle 0 1)

/-- Fifty flat candles: enough history for the trend filter. -/
def d50 : List Candle := flatCandles 50

/-- Thirty flat candles: enough history for the entry scorer. -/
def d30 : List Candle := flatCandles 30

/-- A fresh trader: `PaperTrader(starting_balance=100000.0)` with the default
leverage bounds 10 and 50. -/
def t0 : PaperTrader :=
  { starting_balance := 100000, balance := 100000, positions := [], trades := [],
    min_leverage := 10, max_leverage := 50 }

/-- The worked-example signal: BUY BTCUSDT at 42000 with conviction 0.6. -/
def sigW : Signal :=
  { symbol := "BTCUSDT", signal := "BUY", price := 42000, conviction := some (3 / 5),
    atr_pct := some (6 / 5) }

/-- A HOLD signal, which `open_position` must reject. -/
def sigHold : Signal :=
  { symbol := "ETHUSDT", signal := "HOLD", price := 3000, conviction := none,
    atr_pct := none }

/-- A signal with conviction 0.5975, where truncation and rounding differ. -/
def sigCx : Signal :=
  { symbol := "BTCUSDT", signal := "BUY", price := 42000, conviction := some (239 / 400),
    atr_pct := none }

/-- An open BUY position at entry 100 (tp 101.5, sl 99.2) that has already
seen a favorable excursion of 1% and has been held for 31 candles. -/
def posTO : Position :=
  { symbol := "BTCUSDT", direction := "BUY", entry_price := 100, entry_time := "",
    leverage := 10, margin := 100, tp_price := 203 / 2, sl_price := 496 / 5,
    trail_pct := 7 / 1000, max_pnl_pct := 1 / 100, hold_candles := 31 }

/-- A trader holding `posTO`. -/
def tTO : PaperTrader := { t0 with positions := [("BTCUSDT", posTO)] }

/-! ## Helper lemmas -/

theorem findVal_append {α : Type} {l : List (String × α)} {k : String} (v : α)
    (h : findVal l k = none) : findVal (l ++ [(k, v)]) k = some v := by
  induction l with
  | nil => simp [findVal]
  | cons kv rest ih =>
    obtain ⟨k0, v0⟩ := kv
    by_cases hk : k0 = k
    · simp [findVal, hk] at h
    · simp only [findVal, List.cons_append, if_neg hk] at h ⊢
      exact ih h

theorem findVal_setVal {α : Type} {l : List (String × α)} {k : String} {p : α}
    (h : findVal l k = some p) (v : α) : findVal (setVal l k v) k = some v := by
  induction l with
  | nil => simp [findVal] at h
  | cons kv rest ih =>
    obtain ⟨k0, v0⟩ := kv
    by_cases hk : k0 = k
    · simp [findVal, setVal, hk]
    · simp only [findVal, setVal, if_neg hk] at h ⊢
      exact ih h

theorem findVal_removeVal {α : Type} (l : List (String × α)) (k : String) :
    findVal (removeVal l k) k = none := by
  induction l with
  | nil => simp [removeVal, findVal]
  | cons kv rest ih =>
    obtain ⟨k0, v0⟩ := kv
    by_cases hk : k0 = k
    · simp [removeVal, hk, ih]
    · simp [removeVal, findVal, hk, ih]

theorem bull_bear_exclusive (df : List Candle) : ¬(bull1h df ∧ bear1h df) := by
  rintro ⟨hb, hr⟩
  have h1 : ema1hLast 21 df < ema1hLast 8 df := by
    rcases hb with ⟨h, _⟩ | ⟨_, h⟩ <;> exact h
  have h2 : ema1hLast 8 df < ema1hLast 21 df := by
    rcases hr with ⟨h, _⟩ | ⟨_, h⟩ <;> exact h
  exact lt_asymm h1 h2

theorem addCandle_length_le (m : ℕ) (l : List Candle) (c : Candle) (h : l.length ≤ m) :
    (addCandle m l c).length ≤ m := by
  have hlen : (l ++ [c]).length = l.length + 1 := by simp
  cases hl : l.getLast? with
  | none =>
    simp only [addCandle, hl]
    split
    · next hgt => simp only [List.length_drop, hlen]; omega
    · next hle => rw [hlen] at hle; omega
  | some last =>
    have hne : l ≠ [] := by rintro rfl; simp at hl
    have hpos : 1 ≤ l.length := List.length_pos.mpr hne
    simp only [addCandle, hl]
    split
    · simp only [List.length_append, List.length_dropLast, List.length_cons,
        List.length_nil]
      omega
    · split
      · next hgt => simp only [List.length_drop, hlen]; omega
      · next hle => rw [hlen] at hle; omega

theorem foldl_addCandle_length (m : ℕ) (cs : List Candle) :
    ∀ init : List Candle, init.length ≤ m → ((cs.foldl (addCandle m) init).length ≤ m) := by
  induction cs with
  | nil => intro init h; simpa using h
  | cons c rest ih =>
    intro init h
    exact ih (addCandle m init c) (addCandle_length_le m init c h)

theorem lastD_cons (x : ℚ) (xs : List ℚ) (h : xs ≠ []) : lastD (x :: xs) = lastD xs := by
  rcases xs with _ | ⟨y, ys⟩
  · exact absurd rfl h
  · simp [lastD, List.getLast?_cons_cons]

theorem lastD_replicate (c : ℚ) (n : ℕ) (h : n ≠ 0) : lastD (List.replicate n c) = c := by
  induction n with
  | zero => exact absurd rfl h
  | succ k ih =>
    rcases Nat.eq_zero_or_pos k with hk | hk
    · subst hk; simp [lastD]
    · rw [List.replicate_succ, lastD_cons c _ ?_, ih (by omega)]
      intro hnil
      have := congrArg List.length hnil
      simp at this
      omega

theorem ewmFrom_const (a c : ℚ) : ∀ n : ℕ, ewmFrom a c (List.replicate n c) = List.replicate n c := by
  intro n
  induction n with
  | zero => simp [ewmFrom]
  | succ k ih =>
    rw [List.replicate_succ]
    simp only [ewmFrom]
    have hc : (1 - a) * c + a * c = c := by ring
    rw [hc, ih, ← List.replicate_succ]

theorem ewm_const (a c : ℚ) (n : ℕ) : ewm a (List.replicate n c) = List.replicate n c := by
  cases n with
  | zero => simp [ewm]
  | succ k =>
    rw [List.replicate_succ]
    simp only [ewm]
    rw [ewmFrom_const, ← List.replicate_succ]

theorem zipWith_replicate_pred (f : ℚ → ℚ → ℚ) (a b : ℚ) :
    ∀ n : ℕ, List.zipWith f (List.replicate n a) (List.replicate (n + 1) b) =
      List.replicate n (f a b) := by
  intro n
  induction n with
  | zero => simp
  | succ k ih =>
    rw [List.replicate_succ, List.replicate_succ (n := k + 1), List.zipWith_cons_cons, ih,
      ← List.replicate_succ]

theorem zipWith_replicate_same (f : ℚ → ℚ → ℚ) (a b : ℚ) :
    ∀ n : ℕ, List.zipWith f (List.replicate n a) (List.replicate n b) =
      List.replicate n (f a b) := by
  intro n
  induction n with
  | zero => simp
  | succ k ih =>
    rw [List.replicate_succ, List.replicate_succ (a := b), List.zipWith_cons_cons, ih,
      ← List.replicate_succ]

theorem closes_flat (n : ℕ) : closes (flatCandles n) = List.replicate n 1 := by
  simp [closes, flatCandles, List.map_replicate, fullCandle]

theorem closeAt_flat {n i : ℕ} (h : i < n) : closeAt (flatCandles n) i = 1 := by
  simp [closeAt, flatCandles, List.getElem?_replicate, h, fullCandle]

theorem highAt_flat {n i : ℕ} (h : i < n) : highAt (flatCandles n) i = 1 := by
  simp [highAt, flatCandles, List.getElem?_replicate, h, fullCandle]

theorem lowAt_flat {n i : ℕ} (h : i < n) : lowAt (flatCandles n) i = 1 := by
  simp [lowAt, flatCandles, List.getElem?_replicate, h, fullCandle]

theorem trAt_flat {n i : ℕ} (h : i < n) : trAt (flatCandles n) i = 0 := by
  rcases Nat.eq_zero_or_pos i with hi | hi
  · subst hi
    rw [trAt, if_pos rfl, highAt_flat h, lowAt_flat h]
    norm_num
  · have h1 : i - 1 < n := by omega
    rw [trAt, if_neg (by omega), highAt_flat h, lowAt_flat h, closeAt_flat h1]
    norm_num

theorem trWindowSum_flat {n j : ℕ} (h : j + 9 < n) : trWindowSum (flatCandles n) j = 0 := by
  rw [trWindowSum]
  apply List.sum_eq_zero
  intro x hx
  simp only [List.mem_map, List.mem_range] at hx
  obtain ⟨k, hk, rfl⟩ := hx
  exact trAt_flat (by omega)

theorem atr1hAt_flat {n i : ℕ} (hn : 10 ≤ n) (h : i < n) : atr1hAt (flatCandles n) i = 0 := by
  rw [atr1hAt]
  split
  · next h9 => rw [trWindowSum_flat (by omega)]; norm_num
  · next h9 => rw [trWindowSum_flat (by omega)]; norm_num

theorem upperAt_flat {n i : ℕ} (hn : 10 ≤ n) (h : i < n) : upperAt (flatCandles n) i = 1 := by
  rw [upperAt, highAt_flat h, lowAt_flat h, atr1hAt_flat hn h]
  norm_num

theorem lowerAt_flat {n i : ℕ} (hn : 10 ≤ n) (h : i < n) : lowerAt (flatCandles n) i = 1 := by
  rw [lowerAt, highAt_flat h, lowAt_flat h, atr1hAt_flat hn h]
  norm_num

theorem stPair_flat {n : ℕ} (hn : 10 ≤ n) :
    ∀ i : ℕ, 1 ≤ i → i < n → stPair (flatCandles n) i = (1, -1) := by
  intro i
  induction i with
  | zero => intro h1 _; omega
  | succ k ih =>
    intro _ hlt
    have hk : k < n := by omega
    have hup := upperAt_flat hn hlt
    have hlo := lowerAt_flat hn hlt
    have hck := closeAt_flat hk
    have hck1 := closeAt_flat hlt
    rcases Nat.eq_zero_or_pos k with hk0 | hk0
    · subst hk0
      simp only [stPair, hup, hlo, hck, hck1, closeAt_flat (show 0 < n by omega)]
      norm_num
    · have hprev := ih (by omega) (by omega)
      simp only [stPair, hprev, hup, hlo, hck, hck1]
      norm_num

theorem stDirLast_flat {n : ℕ} (hn : 10 ≤ n) : stDirLast (flatCandles n) = -1 := by
  rw [stDirLast]
  have hlen : (flatCandles n).length = n := by simp [flatCandles]
  rw [hlen, stPair_flat hn (n - 1) (by omega) (by omega)]

theorem ema1hLast_flat (span : ℕ) {n : ℕ} (hn : n ≠ 0) : ema1hLast span (flatCandles n) = 1 := by
  rw [ema1hLast, closes_flat, emaSpan, ewm_const, lastD_replicate _ _ hn]

theorem closes_d30 : closes d30 = List.replicate 30 1 := closes_flat 30

theorem closeLast_d30 : closeLast d30 = 1 := by
  rw [closeLast, closes_d30, lastD_replicate _ _ (by norm_num)]

theorem openLast_d30 : openLast d30 = 1 := by
  have hm : d30.map Candle.open_ = List.replicate 30 1 := by
    simp [d30, flatCandles, List.map_replicate, fullCandle]
  rw [openLast, hm, lastD_replicate _ _ (by norm_num)]

theorem bodyLast_d30 : bodyLast d30 = 0 := by
  rw [bodyLast, closeLast_d30, openLast_d30]
  norm_num

theorem ema13Last_d30 : ema13Last d30 = 1 := by
  rw [ema13Last, closes_d30, emaSpan, ewm_const, lastD_replicate _ _ (by norm_num)]

theorem distEma13Last_d30 : distEma13Last d30 = 0 := by
  rw [distEma13Last, closeLast_d30, ema13Last_d30]
  norm_num

theorem deltas_d30 : deltas d30 = List.replicate 29 0 := by
  rw [deltas, closes_d30]
  rw [show (List.replicate 30 (1 : ℚ)).tail = List.replicate 29 1 by simp]
  rw [show (30 : ℕ) = 29 + 1 from rfl, zipWith_replicate_pred]
  norm_num

theorem gains_d30 : gains d30 = List.replicate 30 0 := by
  rw [gains, deltas_d30, List.map_replicate]
  simp

theorem losses_d30 : losses d30 = List.replicate 30 0 := by
  rw [losses, deltas_d30, List.map_replicate]
  simp

theorem rsiLast_d30 : rsiLast d30 = 0 := by
  rw [rsiLast, gains_d30, losses_d30]
  simp only [emaSpan]
  rw [ewm_const, lastD_replicate _ _ (by norm_num)]
  norm_num

theorem macdList_d30 : macdList d30 = List.replicate 30 0 := by
  rw [macdList, closes_d30]
  simp only [emaSpan]
  rw [ewm_const, ewm_const, zipWith_replicate_same]
  norm_num

theorem macdLast_d30 : macdLast d30 = 0 := by
  rw [macdLast, macdList_d30, lastD_replicate _ _ (by norm_num)]

theorem macdSigLast_d30 : macdSigLast d30 = 0 := by
  rw [macdSigLast, macdList_d30]
  simp only [emaSpan]
  rw [ewm_const, lastD_replicate _ _ (by norm_num)]

theorem macdPrev_d30 : macdPrev d30 = 0 := by
  rw [macdPrev, macdList_d30]
  have hl : d30.length = 30 := by simp [d30, flatCandles]
  rw [hl]
  simp [List.getElem?_replicate]

theorem volRatioLast_d30 : volRatioLast d30 = 1 / (1 + 1 / 10 ^ 10) := by
  have hv : volumes d30 = List.replicate 30 1 := by
    simp [volumes, d30, flatCandles, List.map_replicate, fullCandle]
  have h1 : volumeLast d30 = 1 := by
    rw [volumeLast, hv, lastD_replicate _ _ (by norm_num)]
  have h2 : volMALast d30 = 1 := by
    rw [volMALast, hv]
    have hl : d30.length = 30 := by simp [d30, flatCandles]
    rw [hl]
    rw [show (List.replicate 30 (1 : ℚ)).drop (30 - 12) = List.replicate 12 1 by simp]
    rw [List.sum_replicate]
    norm_num
  rw [volRatioLast, h1, h2]

theorem buyScore_d30 : buyScore d30 = 2 := by
  have c1 : decide (-2 < distEma13Last d30 ∧ distEma13Last d30 < 3 / 2) = true := by
    rw [distEma13Last_d30]; norm_num
  have c2 : decide (30 < rsiLast d30 ∧ rsiLast d30 < 70) = false := by
    rw [rsiLast_d30]; norm_num
  have c3 : decide (macdSigLast d30 < macdLast d30 ∨ macdPrev d30 < macdLast d30) = false := by
    rw [macdSigLast_d30, macdLast_d30, macdPrev_d30]; norm_num
  have c4 : decide ((0 : ℚ) < bodyLast d30) = false := by
    rw [bodyLast_d30]; norm_num
  have c5 : decide ((1 : ℚ) / 2 < volRatioLast d30) = true := by
    rw [volRatioLast_d30]
    rw [decide_eq_true_eq]
    rw [div_lt_div_iff₀ (by norm_num) (by norm_num)]
    norm_num
  rw [buyScore, buyCondList, c1, c2, c3, c4, c5]
  rfl

theorem connectLoop_stuck (m : ℕ) (s : FeedState) (atts : List ConnAttempt)
    (hg : ¬(s.running = true ∨ s.retryCount = 0)) : connectLoop m s atts = (s, []) := by
  unfold connectLoop
  rw [if_neg hg]

theorem connectLoop_nil (m : ℕ) (s : FeedState) : connectLoop m s [] = (s, []) := by
  unfold connectLoop
  split <;> rfl

theorem connectLoop_fail (m : ℕ) (s : FeedState) (rest : List ConnAttempt)
    (hg : s.running = true ∨ s.retryCount = 0) :
    connectLoop m s (ConnAttempt.fail :: rest) =
      if m < s.retryCount + 1 then ({ running := false, retryCount := s.retryCount + 1 }, [])
      else connectLoop m { s with retryCount := s.retryCount + 1 } rest := by
  conv_lhs => unfold connectLoop
  rw [if_pos hg]

theorem connectLoop_succeed (m : ℕ) (s : FeedState) (cs : List Candle)
    (rest : List ConnAttempt) (hg : s.running = true ∨ s.retryCount = 0) :
    connectLoop m s (ConnAttempt.succeed cs :: rest) =
      ((connectLoop m { running := true, retryCount := 0 } rest).1,
        cs ++ (connectLoop m { running := true, retryCount := 0 } rest).2) := by
  conv_lhs => unfold connectLoop
  rw [if_pos hg]

theorem connectLoop_fail_run (m : ℕ) :
    ∀ (k j : ℕ) (rest : List ConnAttempt), j + k = m + 1 → j ≤ m →
      connectLoop m { running := true, retryCount := j }
          (List.replicate k ConnAttempt.fail ++ rest) =
        ({ running := false, retryCount := m + 1 }, []) := by
  intro k
  induction k with
  | zero => intro j rest hk hj; omega
  | succ k ih =>
    intro j rest hk hj
    rw [List.replicate_succ, List.cons_append,
      connectLoop_fail m _ _ (Or.inl rfl)]
    by_cases hm : m < j + 1
    · have hje : j = m := by omega
      rw [if_pos hm, hje]
    · rw [if_neg hm]
      have := ih (j + 1) rest (by omega) (by omega)
      exact this

/-! ## Claim theorems -/

/-- C1 (amended): `update_position` evaluates the exit rules as an `elif`
chain in the priority TP, then SL, then the trailing arm, then TIMEOUT; the
first arm whose guard holds decides the update, a matching rule closes the
position with that reason and returns it, and otherwise none is returned and
the position stays open (with `hold_candles` incremented and the high-water
mark updated).  Because the TRAIL retrace test is nested inside the
`max_pnl_pct > trail_pct` arm, TIMEOUT is reached only when that guard is
false: with the guard true and no retrace, the chain returns none even when
`hold_candles` has reached 32. -/
theorem update_exit_rules (t : PaperTrader) (symbol : String) (price : ℚ) (p0 : Position)
    (h : findVal t.positions symbol = some p0) :
    (tpHit (steppedPos p0 price) price →
      (update_position t symbol price).1 = some "TP") ∧
    (¬tpHit (steppedPos p0 price) price → slHit (steppedPos p0 price) price →
      (update_position t symbol price).1 = some "SL") ∧
    (¬tpHit (steppedPos p0 price) price → ¬slHit (steppedPos p0 price) price →
      (steppedPos p0 price).trail_pct < (steppedPos p0 price).max_pnl_pct →
      pnlPctOf p0.direction p0.entry_price price <
        (steppedPos p0 price).max_pnl_pct - (steppedPos p0 price).trail_pct →
      (update_position t symbol price).1 = some "TRAIL") ∧
    (¬tpHit (steppedPos p0 price) price → ¬slHit (steppedPos p0 price) price →
      ¬(steppedPos p0 price).trail_pct < (steppedPos p0 price).max_pnl_pct →
      maxHoldCandles ≤ (steppedPos p0 price).hold_candles →
      (update_position t symbol price).1 = some "TIMEOUT") ∧
    (¬tpHit (steppedPos p0 price) price → ¬slHit (steppedPos p0 price) price →
      (steppedPos p0 price).trail_pct < (steppedPos p0 price).max_pnl_pct →
      ¬pnlPctOf p0.direction p0.entry_price price <
        (steppedPos p0 price).max_pnl_pct - (steppedPos p0 price).trail_pct →
      (update_position t symbol price).1 = none) ∧
    (¬tpHit (steppedPos p0 price) price → ¬slHit (steppedPos p0 price) price →
      ¬(steppedPos p0 price).trail_pct < (steppedPos p0 price).max_pnl_pct →
      (steppedPos p0 price).hold_candles < maxHoldCandles →
      (update_position t symbol price).1 = none) ∧
    (∀ r, (update_position t symbol price).1 = some r →
      findVal (update_position t symbol price).2.positions symbol = none) ∧
    ((update_position t symbol price).1 = none →
      findVal (update_position t symbol price).2.positions symbol =
        some (steppedPos p0 price)) := by
  have hstep : (steppedPos p0 price).direction = p0.direction := rfl
  have hentry : (steppedPos p0 price).entry_price = p0.entry_price := rfl
  refine ⟨?_, ?_, ?_, ?_, ?_, ?_, ?_, ?_⟩
  · intro htp
    simp [update_position, h, exitReasonOf, htp]
  · intro htp hsl
    simp [update_position, h, exitReasonOf, htp, hsl]
  · intro htp hsl hg hr
    simp only [update_position, h, exitReasonOf, if_neg htp, if_neg hsl, if_pos hg,
      hstep, hentry, if_pos hr]
  · intro htp hsl hg hh
    simp [update_position, h, exitReasonOf, htp, hsl, hg, hh]
  · intro htp hsl hg hr
    simp only [update_position, h, exitReasonOf, if_neg htp, if_neg hsl, if_pos hg,
      hstep, hentry, if_neg hr]
  · intro htp hsl hg hh
    have hh' : ¬maxHoldCandles ≤ (steppedPos p0 price).hold_candles := by omega
    simp [update_position, h, exitReasonOf, htp, hsl, hg, hh']
  · intro r hr
    cases he : exitReasonOf (steppedPos p0 price) price with
    | none => simp [update_position, h, he] at hr
    | some r2 =>
      have hset := findVal_setVal h (steppedPos p0 price)
      simp [update_position, h, he, close_position, hset, findVal_removeVal]
  · intro hr
    cases he : exitReasonOf (steppedPos p0 price) price with
    | none =>
      have hset := findVal_setVal h (steppedPos p0 price)
      simp [update_position, h, he, hset]
    | some r2 => simp [update_position, h, he] at hr

/-- C1 witness: on the concrete trader `tTO`, a price of 102 crosses the
take-profit of the stored BUY position and `update_position` returns TP. -/
theorem update_exit_rules_witness :
    (update_position tTO "BTCUSDT" 102).1 = some "TP" :=
  (update_exit_rules tTO "BTCUSDT" 102 posTO (by with_unfolding_all decide)).1
    (by with_unfolding_all decide)

/-- C1 counterexample to the claim as stated: a BUY position held for 31
candles (so `hold_candles` reaches 32 on this update) whose high-water mark
1% exceeds `trail_pct` 0.7% but whose current P&L 0.9% has not retraced, at a
price hitting neither TP nor SL: no exit rule matches, yet `update_position`
returns none instead of closing with TIMEOUT, and the position stays open. -/
theorem update_timeout_cex :
    maxHoldCandles ≤ (steppedPos posTO (1009 / 10)).hold_candles ∧
    ¬tpHit (steppedPos posTO (1009 / 10)) (1009 / 10) ∧
    ¬slHit (steppedPos posTO (1009 / 10)) (1009 / 10) ∧
    ¬((steppedPos posTO (1009 / 10)).trail_pct < (steppedPos posTO (1009 / 10)).max_pnl_pct ∧
      pnlPctOf posTO.direction posTO.entry_price (1009 / 10) <
        (steppedPos posTO (1009 / 10)).max_pnl_pct - (steppedPos posTO (1009 / 10)).trail_pct) ∧
    (update_position tTO "BTCUSDT" (1009 / 10)).1 = none ∧
    findVal (update_position tTO "BTCUSDT" (1009 / 10)).2.positions "BTCUSDT" ≠ none := by
  with_unfolding_all decide

/-- C2 (amended): for an accepted BUY or SELL signal, `open_position` stores a
position with leverage `clamp(trunc(min_lev + conviction·(max_lev − min_lev)),
min_lev, max_lev)` — Python `int()` truncates rather than rounds. -/
theorem open_leverage (t : PaperTrader) (sig : Signal)
    (h : findVal t.positions sig.symbol = none)
    (hk : sig.signal = "BUY" ∨ sig.signal = "SELL") :
    (open_position t sig).1 = true ∧
    findVal (open_position t sig).2.positions sig.symbol = some (mkPosition t sig) ∧
    (mkPosition t sig).leverage =
      npClipInt
        (pyInt ((t.min_leverage : ℚ) + convOf sig * ((t.max_leverage : ℚ) - (t.min_leverage : ℚ))))
        t.min_leverage t.max_leverage := by
  refine ⟨?_, ?_, rfl⟩
  · simp [open_position, h, hk]
  · simp only [open_position, h, if_pos hk]
    exact findVal_append (mkPosition t sig) h

/-- C2 witness: the worked example — BUY at conviction 0.6 with the default
bounds 10 and 50 opens with leverage exactly 34 = 10 + 0.6·40. -/
theorem open_leverage_witness :
    (open_position t0 sigW).1 = true ∧
    findVal (open_position t0 sigW).2.positions "BTCUSDT" = some (mkPosition t0 sigW) ∧
    (mkPosition t0 sigW).leverage = 34 := by
  have h := open_leverage t0 sigW rfl (Or.inl rfl)
  exact ⟨h.1, h.2.1, by with_unfolding_all decide⟩

/-- C2 counterexample to the claim as stated: at conviction 0.5975 the code's
truncation gives leverage 33 while the claimed `clamp(round(...))` formula
gives 34, so `open` does not compute the claimed formula. -/
theorem open_leverage_round_cex :
    (open_position t0 sigCx).1 = true ∧
    findVal (open_position t0 sigCx).2.positions "BTCUSDT" = some (mkPosition t0 sigCx) ∧
    (mkPosition t0 sigCx).leverage = 33 ∧
    npClipInt
        (round ((t0.min_leverage : ℚ) + convOf sigCx * ((t0.max_leverage : ℚ) - (t0.min_leverage : ℚ))))
        t0.min_leverage t0.max_leverage = 34 := by
  refine ⟨by with_unfolding_all decide, ?_, by with_unfolding_all decide, ?_⟩
  · simp only [open_position, show findVal t0.positions sigCx.symbol = none from rfl,
      if_pos (Or.inl rfl : sigCx.signal = "BUY" ∨ sigCx.signal = "SELL")]
    exact findVal_append (mkPosition t0 sigCx) rfl
  · norm_num [npClipInt, convOf, sigCx, t0, round_eq]

/-- C3: a second `open` for a symbol that already has a position returns
false and leaves the whole trader state (the stored position, the balance and
the trade history) unchanged, and a signal whose kind is neither BUY nor SELL
is likewise rejected with no state change. -/
theorem open_rejects (t : PaperTrader) (sig : Signal) :
    (∀ p, findVal t.positions sig.symbol = some p → open_position t sig = (false, t)) ∧
    (sig.signal ≠ "BUY" → sig.signal ≠ "SELL" → open_position t sig = (false, t)) := by
  constructor
  · intro p hp
    simp [open_position, hp]
  · intro h1 h2
    cases hf : findVal t.positions sig.symbol with
    | some p => simp [open_position, hf]
    | none => simp [open_position, hf, h1, h2]

/-- C3 witness: re-opening BTCUSDT on the trader `tTO` that already holds it
returns false with the state intact, and a HOLD signal is rejected the same
way on a fresh trader. -/
theorem open_rejects_witness :
    open_position tTO sigW = (false, tTO) ∧ open_position t0 sigHold = (false, t0) :=
  ⟨(open_rejects tTO sigW).1 posTO (by with_unfolding_all decide),
    (open_rejects t0 sigHold).2 (by decide) (by decide)⟩

/-- C4: under the dedup rule of `process` — notify iff the new kind differs
from the stored one (missing reads as HOLD) and is not HOLD — two consecutive
identical non-HOLD evaluations from a fresh symbol notify exactly once, the
run BUY, HOLD, BUY notifies twice, a HOLD evaluation never notifies, and the
last signal is stored after every evaluation regardless of notification. -/
theorem signal_dedup :
    (∀ k, k ≠ "HOLD" → notifyCount none [k, k] = 1) ∧
    notifyCount none ["BUY", "HOLD", "BUY"] = 2 ∧
    (∀ (last : Option String) (ks : List String),
      notifyCount last ("HOLD" :: ks) = notifyCount (some "HOLD") ks) ∧
    (∀ (last : Option String) (ks : List String) (k : String),
      lastStored last (ks ++ [k]) = some k) := by
  refine ⟨?_, by decide, ?_, ?_⟩
  · intro k hk
    simp [notifyCount, notifies, hk]
  · intro last ks
    simp [notifyCount, notifies]
  · intro last ks k
    induction ks generalizing last with
    | nil => rfl
    | cons k0 rest ih => simpa [lastStored] using ih (some k0)

/-- C4 witness: two consecutive BUY evaluations notify exactly once. -/
theorem signal_dedup_witness : notifyCount none ["BUY", "BUY"] = 1 :=
  signal_dedup.1 "BUY" (by decide)

/-- C7: closing an open position adjusts the exit price by slippage opposite
to the entry direction (−0.05% for BUY, +0.05% for SELL), computes `pnl_pct`
from the adjusted exit against the entry price, adds exactly
`margin·pnl_pct·leverage − margin·leverage·0.0008` to the balance, removes the
position, and appends the closed-trade record to the history. -/
theorem close_accounting (t : PaperTrader) (symbol : String) (exit_price : ℚ)
    (reason : String) (p : Position) (h : findVal t.positions symbol = some p) :
    (close_position t symbol exit_price reason).balance =
      t.balance +
        (p.margin * pnlPctOf p.direction p.entry_price (actualExitOf p.direction exit_price) *
            (p.leverage : ℚ) -
          p.margin * (p.leverage : ℚ) * (8 / 10000)) ∧
    actualExitOf "BUY" exit_price = exit_price * (1 - 5 / 10000) ∧
    actualExitOf "SELL" exit_price = exit_price * (1 + 5 / 10000) ∧
    (close_position t symbol exit_price reason).trades =
      t.trades ++ [mkTrade symbol p exit_price reason] ∧
    findVal (close_position t symbol exit_price reason).positions symbol = none := by
  refine ⟨?_, ?_, ?_, ?_, ?_⟩
  · simp only [close_position, h, netPnlOf, feeRate]
    ring
  · simp [actualExitOf, slippagePct]
  · simp [actualExitOf, slippagePct]
  · simp [close_position, h]
  · simp [close_position, h, findVal_removeVal]

/-- C7 witness: closing the concrete BUY position of `tTO` at 102 books
net P&L 18.69, removes the position, and appends the trade. -/
theorem close_accounting_witness :
    (close_position tTO "BTCUSDT" 102 "TP").balance =
      tTO.balance +
        (posTO.margin *
            pnlPctOf posTO.direction posTO.entry_price (actualExitOf posTO.direction 102) *
            (posTO.leverage : ℚ) -
          posTO.margin * (posTO.leverage : ℚ) * (8 / 10000)) ∧
    findVal (close_position tTO "BTCUSDT" 102 "TP").positions "BTCUSDT" = none ∧
    (close_position tTO "BTCUSDT" 102 "TP").balance = 10001869 / 100 := by
  have h := close_accounting tTO "BTCUSDT" 102 "TP" posTO (by with_unfolding_all decide)
  refine ⟨h.1, h.2.2.2.2, ?_⟩
  rw [h.1]
  norm_num [tTO, t0, posTO, pnlPctOf, actualExitOf, slippagePct]

/-- C10: the `Trade` appended by `close_position` always carries
`conviction = 0`: the source constructs the record with a literal `0` and
never consults the conviction of the signal that opened the position. -/
theorem trade_conviction_zero (t : PaperTrader) (symbol : String) (exit_price : ℚ)
    (reason : String) (p : Position) (h : findVal t.positions symbol = some p) :
    (close_position t symbol exit_price reason).trades =
      t.trades ++ [mkTrade symbol p exit_price reason] ∧
    (mkTrade symbol p exit_price reason).conviction = 0 := by
  constructor
  · simp [close_position, h]
  · rfl

/-- C10 witness: the trade booked for `posTO` — a position whose opening
signal would have carried a positive conviction — records conviction 0. -/
theorem trade_conviction_zero_witness :
    (close_position tTO "BTCUSDT" 102 "TP").trades =
      tTO.trades ++ [mkTrade "BTCUSDT" posTO 102 "TP"] ∧
    (mkTrade "BTCUSDT" posTO 102 "TP").conviction = 0 :=
  trade_conviction_zero tTO "BTCUSDT" 102 "TP" posTO (by with_unfolding_all decide)

/-- C8: per (symbol, timeframe) series of `CandleBuffer.add_candle`: any
sequence of upserts starting from the empty series keeps the length within
`max_candles`; an upsert whose timestamp equals the last stored candle's
replaces it in place — same length, new value wins; and an append that pushes
the length past the bound drops exactly the oldest entry. -/
theorem candle_buffer :
    (∀ (m : ℕ) (cs : List Candle), ((cs.foldl (addCandle m) []).length ≤ m)) ∧
    (∀ (m : ℕ) (l : List Candle) (c last : Candle), l.getLast? = some last →
      last.timestamp = c.timestamp →
      addCandle m l c = l.dropLast ++ [c] ∧
      (addCandle m l c).length = l.length ∧
      (addCandle m l c).getLast? = some c) ∧
    (∀ (m : ℕ) (l : List Candle) (c last : Candle), l.getLast? = some last →
      last.timestamp ≠ c.timestamp → m < l.length + 1 →
      addCandle m l c = l.drop 1 ++ [c]) := by
  refine ⟨?_, ?_, ?_⟩
  · intro m cs
    exact foldl_addCandle_length m cs [] (by simp)
  · intro m l c last hl ht
    have hne : l ≠ [] := by rintro rfl; simp at hl
    have hpos : 1 ≤ l.length := List.length_pos.mpr hne
    have he : addCandle m l c = l.dropLast ++ [c] := by
      simp [addCandle, hl, ht]
    refine ⟨he, ?_, ?_⟩
    · rw [he]
      simp only [List.length_append, List.length_dropLast, List.length_cons,
        List.length_nil]
      omega
    · rw [he]
      simp
  · intro m l c last hl ht hm
    have hne : l ≠ [] := by rintro rfl; simp at hl
    have hpos : 1 ≤ l.length := List.length_pos.mpr hne
    have hm2 : m < (l ++ [c]).length := by simp; omega
    simp only [addCandle, hl, if_neg ht, if_pos hm2]
    exact List.drop_append_of_le_length hpos

/-- C8 witness: on a two-candle series with bound 2, a same-timestamp upsert
replaces the last entry without growing, and a fresh append evicts the
oldest entry. -/
theorem candle_buffer_witness :
    addCandle 2 [unitCandle 0, unitCandle 1] (fullCandle 1 2) =
      [unitCandle 0, fullCandle 1 2] ∧
    (addCandle 2 [unitCandle 0, unitCandle 1] (fullCandle 1 2)).length = 2 ∧
    addCandle 2 [unitCandle 0, unitCandle 1] (fullCandle 2 2) =
      [unitCandle 1, fullCandle 2 2] := by
  have h1 := candle_buffer.2.1 2 [unitCandle 0, unitCandle 1] (fullCandle 1 2)
    (unitCandle 1) (by decide) (by decide)
  have h2 := candle_buffer.2.2 2 [unitCandle 0, unitCandle 1] (fullCandle 2 2)
    (unitCandle 1) (by decide) (by decide) (by decide)
  exact ⟨h1.1, h1.2.1, h2⟩

/-- C9 (amended): after a successful STREAMING period (which resets the retry
count to 0), it takes `max_retries + 1` — not `max_retries` — consecutive
connection failures for the loop to set `running = False` and stop, after
which no further candle notifications are emitted regardless of later
attempts; a successful connection always resets the retry count to 0; and a
feed that never reached STREAMING exits the loop after a single failure. -/
theorem feed_reconnection :
    (∀ (m : ℕ) (rest : List ConnAttempt),
      connectLoop m { running := true, retryCount := 0 }
          (List.replicate (m + 1) ConnAttempt.fail ++ rest) =
        ({ running := false, retryCount := m + 1 }, [])) ∧
    (∀ (m : ℕ) (s : FeedState) (cs : List Candle) (rest : List ConnAttempt),
      s.running = true ∨ s.retryCount = 0 →
      connectLoop m s (ConnAttempt.succeed cs :: rest) =
        ((connectLoop m { running := true, retryCount := 0 } rest).1,
          cs ++ (connectLoop m { running := true, retryCount := 0 } rest).2)) ∧
    (∀ (m : ℕ) (rest : List ConnAttempt),
      connectLoop m { running := false, retryCount := 0 } (ConnAttempt.fail :: rest) =
        ({ running := false, retryCount := 1 }, [])) := by
  refine ⟨?_, ?_, ?_⟩
  · intro m rest
    exact connectLoop_fail_run m (m + 1) 0 rest (by omega) (by omega)
  · intro m s cs rest hg
    exact connectLoop_succeed m s cs rest hg
  · intro m rest
    rw [connectLoop_fail m _ _ (Or.inr rfl)]
    rcases Nat.eq_zero_or_pos m with hm | hm
    · subst hm
      rw [if_pos (by show (0 : ℕ) < 0 + 1; omega)]
    · rw [if_neg (by show ¬(m < 0 + 1); omega)]
      exact connectLoop_stuck m _ rest (by simp)

/-- C9 witness: with the source's `max_retries = 5`, six consecutive failures
after a streaming period stop the feed with no emissions; one success resets
the count and streams its candles; one failure before any success ends the
loop. -/
theorem feed_reconnection_witness :
    connectLoop feedMaxRetries { running := true, retryCount := 0 }
        (List.replicate 6 ConnAttempt.fail) =
      ({ running := false, retryCount := 6 }, []) ∧
    connectLoop feedMaxRetries { running := true, retryCount := 0 }
        [ConnAttempt.succeed [unitCandle 0]] =
      ({ running := true, retryCount := 0 }, [unitCandle 0]) ∧
    connectLoop feedMaxRetries { running := false, retryCount := 0 } [ConnAttempt.fail] =
      ({ running := false, retryCount := 1 }, []) := by
  refine ⟨?_, ?_, feed_reconnection.2.2 feedMaxRetries []⟩
  · have h := feed_reconnection.1 feedMaxRetries []
    simpa [feedMaxRetries] using h
  · have h := feed_reconnection.2.1 feedMaxRetries { running := true, retryCount := 0 }
      [unitCandle 0] [] (Or.inl rfl)
    simpa [connectLoop_nil] using h

/-- C5 (amended): the trend filter returns bullish iff (EMA8>EMA21>EMA50) OR
(trend-band bullish AND EMA8>EMA21), bearish iff the mirror condition, and
NEUTRAL exactly when neither holds (both can never hold at once); a series of
fewer than 50 candles yields NEUTRAL, and the signal `process` emits for it
carries the generic reason "No clear trend (ST and EMA not aligned)" — not an
insufficient-data reason. -/
theorem trend_filter (df : List Candle) :
    (df.length < 50 → get_1h_direction df = 0) ∧
    (50 ≤ df.length →
      (get_1h_direction df = 1 ↔ bull1h df) ∧
      (get_1h_direction df = -1 ↔ bear1h df) ∧
      (get_1h_direction df = 0 ↔ ¬bull1h df ∧ ¬bear1h df)) ∧
    (df.length < 50 → ∀ (sym : String) (df15 : List Candle),
      (process sym df df15).signal = "HOLD" ∧
      (process sym df df15).direction = "NEUTRAL" ∧
      (process sym df df15).reason = "No clear trend (ST and EMA not aligned)") := by
  have hex := bull_bear_exclusive df
  refine ⟨?_, ?_, ?_⟩
  · intro h
    simp [get_1h_direction, h]
  · intro h
    have h' : ¬df.length < 50 := by omega
    by_cases hb : bull1h df
    · have hr : ¬bear1h df := fun hr => hex ⟨hb, hr⟩
      have hg : get_1h_direction df = 1 := by simp [get_1h_direction, h', hb, hr]
      rw [hg]
      exact ⟨⟨fun _ => hb, fun _ => rfl⟩,
        ⟨fun hq => absurd hq (by norm_num), fun hq => absurd hq hr⟩,
        ⟨fun hq => absurd hq (by norm_num), fun hq => absurd hb hq.1⟩⟩
    · by_cases hr : bear1h df
      · have hg : get_1h_direction df = -1 := by simp [get_1h_direction, h', hb, hr]
        rw [hg]
        exact ⟨⟨fun hq => absurd hq (by norm_num), fun hq => absurd hq hb⟩,
          ⟨fun _ => hr, fun _ => rfl⟩,
          ⟨fun hq => absurd hq (by norm_num), fun hq => absurd hr hq.2⟩⟩
      · have hg : get_1h_direction df = 0 := by simp [get_1h_direction, h', hb, hr]
        rw [hg]
        exact ⟨⟨fun hq => absurd hq (by norm_num), fun hq => absurd hq hb⟩,
          ⟨fun hq => absurd hq (by norm_num), fun hq => absurd hq hr⟩,
          ⟨fun _ => ⟨hb, hr⟩, fun _ => rfl⟩⟩
  · intro h sym df15
    have hg : get_1h_direction df = 0 := by simp [get_1h_direction, h]
    simp [process, hg]

/-- C5 witness: fifty flat candles have all EMAs equal and a bearish band
flag, so neither the bullish nor the bearish condition holds and the filter
reports NEUTRAL; an empty higher-timeframe series makes `process` emit HOLD
NEUTRAL with the no-clear-trend reason. -/
theorem trend_filter_witness :
    get_1h_direction d50 = 0 ∧ (¬bull1h d50 ∧ ¬bear1h d50) ∧
    (process "BTCUSDT" ([] : List Candle) d30).reason =
      "No clear trend (ST and EMA not aligned)" := by
  have h8 : ema1hLast 8 d50 = 1 := ema1hLast_flat 8 (by norm_num)
  have h21 : ema1hLast 21 d50 = 1 := ema1hLast_flat 21 (by norm_num)
  have hb : ¬bull1h d50 := by
    rintro (⟨hq, _⟩ | ⟨_, hq⟩) <;> rw [h21, h8] at hq <;> exact lt_irrefl 1 hq
  have hr : ¬bear1h d50 := by
    rintro (⟨hq, _⟩ | ⟨_, hq⟩) <;> rw [h21, h8] at hq <;> exact lt_irrefl 1 hq
  have hlen : (50 : ℕ) ≤ d50.length := by simp [d50, flatCandles]
  exact ⟨((trend_filter d50).2.1 hlen).2.2.mpr ⟨hb, hr⟩, ⟨hb, hr⟩,
    ((trend_filter []).2.2 (by simp) "BTCUSDT" d30).2.2⟩

/-- C5 counterexample to the claim as stated: for a series shorter than 50
candles the emitted signal is indeed HOLD/NEUTRAL, but its reason is the
generic "No clear trend (ST and EMA not aligned)", not "insufficient data"
(in either capitalisation). -/
theorem trend_reason_cex :
    ([] : List Candle).length < 50 ∧
    (process "BTCUSDT" [] []).signal = "HOLD" ∧
    (process "BTCUSDT" [] []).direction = "NEUTRAL" ∧
    (process "BTCUSDT" [] []).reason ≠ "insufficient data" ∧
    (process "BTCUSDT" [] []).reason ≠ "Insufficient data" := by
  decide

/-- C6: for a lower-timeframe series of at least 30 candles evaluated under a
non-neutral trend, the entry score is the count (at most 5) of the five
boolean conditions; a score of at least 2 yields BUY (for trend 1) or SELL
(for trend -1) with conviction score/5 and the current close as price, and a
lower score yields HOLD with a reason naming the score and the threshold;
under 30 candles the result is HOLD "Insufficient data". -/
theorem entry_scorer (df : List Candle) :
    (df.length < 30 → ∀ d : ℤ, check_15m_entry df d = insufficientEntry) ∧
    (30 ≤ df.length →
      (buyScore df ≤ 5 ∧ sellScore df ≤ 5) ∧
      (2 ≤ buyScore df → check_15m_entry df 1 =
        { signal := "BUY", score := buyScore df, conviction := (buyScore df : ℚ) / 5,
          price := closeLast df, atr_pct := atrPctLast df, reason := "" }) ∧
      (buyScore df < 2 → check_15m_entry df 1 =
        { signal := "HOLD", score := 0, conviction := 0, price := 0, atr_pct := 0,
          reason := "Score " ++ toString (buyScore df) ++ "/5 < 2 required" }) ∧
      (2 ≤ sellScore df → check_15m_entry df (-1) =
        { signal := "SELL", score := sellScore df, conviction := (sellScore df : ℚ) / 5,
          price := closeLast df, atr_pct := atrPctLast df, reason := "" }) ∧
      (sellScore df < 2 → check_15m_entry df (-1) =
        { signal := "HOLD", score := 0, conviction := 0, price := 0, atr_pct := 0,
          reason := "Score " ++ toString (sellScore df) ++ "/5 < 2 required" })) := by
  constructor
  · intro h d
    simp [check_15m_entry, h]
  · intro h
    have h' : ¬df.length < 30 := by omega
    refine ⟨⟨?_, ?_⟩, ?_, ?_, ?_, ?_⟩
    · exact le_trans (List.count_le_length true (buyCondList df)) (by simp [buyCondList])
    · exact le_trans (List.count_le_length true (sellCondList df)) (by simp [sellCondList])
    · intro hs
      simp [check_15m_entry, h', hs, buyOut]
    · intro hs
      have hs' : ¬2 ≤ buyScore df := by omega
      simp [check_15m_entry, h', hs', holdScoreOut]
    · intro hs
      norm_num [check_15m_entry, h', hs, sellOut]
    · intro hs
      have hs' : ¬2 ≤ sellScore df := by omega
      norm_num [check_15m_entry, h', hs', holdScoreOut]

/-- C6 witness: on thirty flat unit candles, exactly the EMA-proximity and
volume-ratio conditions hold (RSI is 0, MACD momentum and candle body fail),
so the BUY score is 2 and the scorer emits BUY with conviction 2/5. -/
theorem entry_scorer_witness :
    buyScore d30 = 2 ∧
    check_15m_entry d30 1 =
      { signal := "BUY", score := buyScore d30, conviction := (buyScore d30 : ℚ) / 5,
        price := closeLast d30, atr_pct := atrPctLast d30, reason := "" } ∧
    (check_15m_entry d30 1).conviction = 2 / 5 := by
  have hscore := buyScore_d30
  have hlen : (30 : ℕ) ≤ d30.length := by simp [d30, flatCandles]
  have hmain := ((entry_scorer d30).2 hlen).2.1 (by omega)
  refine ⟨hscore, hmain, ?_⟩
  rw [hmain]
  simp [hscore]

/-- C9 counterexample to the claim as stated: with `max_retries = 5`, after
exactly five consecutive failures (and no intervening success) the loop is
still live — `running` is still true — and a subsequent successful attempt
still emits candle notifications, so five failures do not stop ingestion. -/
theorem feed_retries_cex :
    connectLoop feedMaxRetries { running := true, retryCount := 0 }
        (List.replicate 5 ConnAttempt.fail) =
      ({ running := true, retryCount := 5 }, []) ∧
    connectLoop feedMaxRetries { running := true, retryCount := 0 }
        (List.replicate 5 ConnAttempt.fail ++ [ConnAttempt.succeed [unitCandle 0]]) =
      ({ running := true, retryCount := 0 }, [unitCandle 0]) := by
  constructor <;> decide

end TradingBot
